import Mathlib

set_option maxRecDepth 10000

/-!
Shallow embedding of the PX4IO driver core (src/drivers/px4io/px4io.cpp):
the register transport, the status/safety synchronizer, the arming-state
deduplication, the output delta/full-refresh scheduler, the analog RSSI
filter, the startup configuration check and the in-air-restart recovery
waits. Machine integers are modelled as Nat with explicit masking where
overflow matters; link calls are recorded as explicit traces so that
"no link access" is a provable statement; the float32 RSSI filter is
modelled by exact binary32 rounding (round to nearest, ties to even)
carried out over rationals.
-/

namespace Px4ioModel

/-- Modelled from the spec: register page catalogue of the coprocessor
(the protocol header is not part of the provided sources; only the
page names are fixed by the spec, the numeric values are opaque tags). -/
def PX4IO_PAGE_STATUS : Nat := 1

/-- Modelled from the spec: the setup page tag. -/
def PX4IO_PAGE_SETUP : Nat := 50

/-- Modelled from the spec: the direct PWM write-table page tag. -/
def PX4IO_PAGE_DIRECT_PWM : Nat := 54

/-- Modelled from the spec: offset of the status flags register. -/
def PX4IO_P_STATUS_FLAGS : Nat := 0

/-- Modelled from the spec: the arm-sync bit of the status flags word
(a single bit, distinct from the safety-off bit). -/
def PX4IO_P_STATUS_FLAGS_ARM_SYNC : Nat := 512

/-- Modelled from the spec: the safety-off bit of the status flags word. -/
def PX4IO_P_STATUS_FLAGS_SAFETY_OFF : Nat := 4096

/-- Modelled from the spec: offset of the arming register in the setup page. -/
def PX4IO_P_SETUP_ARMING : Nat := 1

/-- Modelled from the spec: offset of the reboot-to-bootloader magic register. -/
def PX4IO_P_SETUP_REBOOT_BL : Nat := 10

/-- Modelled from the spec: offset of the force-safety-on magic register. -/
def PX4IO_P_SETUP_FORCE_SAFETY_ON : Nat := 14

/-- Modelled from the spec: arming-register bit granting IO permission to arm. -/
def PX4IO_P_SETUP_ARMING_IO_ARM_OK : Nat := 1

/-- Modelled from the spec: arming-register bit mirroring the FMU armed state. -/
def PX4IO_P_SETUP_ARMING_FMU_ARMED : Nat := 2

/-- Modelled from the spec: arming-register lockdown bit. -/
def PX4IO_P_SETUP_ARMING_LOCKDOWN : Nat := 128

/-- Modelled from the spec: arming-register force-failsafe bit. -/
def PX4IO_P_SETUP_ARMING_FORCE_FAILSAFE : Nat := 256

/-- Modelled from the spec: arming-register prearmed bit. -/
def PX4IO_P_SETUP_ARMING_FMU_PREARMED : Nat := 2048

/-- Modelled from the spec: magic value accepted by the force-safety registers. -/
def PX4IO_FORCE_SAFETY_MAGIC : Nat := 22027

/-- Modelled from the spec: magic value accepted by the reboot-to-bootloader register. -/
def PX4IO_REBOOT_BL_MAGIC : Nat := 14662

/-- The underlying serial-link collaborator: return codes of its read/write
primitives (number of registers transferred, or an error) and the register
contents it delivers on a successful read, addressed linearly. -/
structure Iface where
  readRet : Nat → Nat → Int
  readVal : Nat → Nat
  writeRet : Nat → Nat → Int

/-- Linear register address, as in the source: page shifted left by 8, or-ed
with the offset. -/
def regAddr (page offset : Nat) : Nat := (page <<< 8) ||| offset

/-- PX4IO io_reg_set: range-check the transfer against the discovered
transfer limit, then invoke the link write. Returns the result code and the
trace of link write invocations (address and buffer). -/
def io_reg_set (max_transfer : Nat) (ifc : Iface) (page offset : Nat)
    (values : List Nat) : Int × List (Nat × List Nat) :=
  if max_transfer / 2 < values.length then
    (-22, [])
  else if ifc.writeRet (regAddr page offset) values.length ≠ (values.length : Int) then
    (-1, [(regAddr page offset, values)])
  else
    (0, [(regAddr page offset, values)])

/-- PX4IO io_reg_get: range-check the transfer, then invoke the link read.
Returns the result code, the buffer delivered on success, and the trace of
link read invocations (address and register count). -/
def io_reg_get (max_transfer : Nat) (ifc : Iface) (page offset num_values : Nat) :
    Int × List Nat × List (Nat × Nat) :=
  if max_transfer / 2 < num_values then
    (-22, [], [])
  else if ifc.readRet (regAddr page offset) num_values ≠ (num_values : Int) then
    (-1, [], [(regAddr page offset, num_values)])
  else
    (0, (List.range num_values).map (fun i => ifc.readVal (regAddr page offset + i)),
     [(regAddr page offset, num_values)])

/-- PX4IO io_reg_modify: read one register, propagate a read failure, else
clear the clearbits, set the setbits (16-bit arithmetic) and write the value
back. Returns the result code and the trace of link write invocations. -/
def io_reg_modify (max_transfer : Nat) (ifc : Iface)
    (page offset clearbits setbits : Nat) : Int × List (Nat × List Nat) :=
  let g := io_reg_get max_transfer ifc page offset 1
  if g.1 ≠ 0 then
    (g.1, [])
  else
    io_reg_set max_transfer ifc page offset
      [((g.2.1.headD 0) &&& (65535 ^^^ (clearbits &&& 65535))) ||| setbits]

/-- PX4IO io_handle_status, reset-detection part: given the cached status
flags and the freshly polled status flags, returns the register-modify
operations issued (page, offset, clearbits, setbits) and the new cached
status. The safety-state publication tail of the source function is elided
(it only reads the decided status). -/
def io_handle_status (cached polled : Nat) : List (Nat × Nat × Nat × Nat) × Nat :=
  if cached &&& PX4IO_P_STATUS_FLAGS_SAFETY_OFF ≠ 0 ∧
     polled &&& PX4IO_P_STATUS_FLAGS_SAFETY_OFF = 0 ∧
     polled &&& PX4IO_P_STATUS_FLAGS_ARM_SYNC = 0 then
    ([(PX4IO_PAGE_STATUS, PX4IO_P_STATUS_FLAGS, 0,
       PX4IO_P_STATUS_FLAGS_SAFETY_OFF ||| PX4IO_P_STATUS_FLAGS_ARM_SYNC)],
     polled &&& PX4IO_P_STATUS_FLAGS_SAFETY_OFF)
  else if cached &&& PX4IO_P_STATUS_FLAGS_ARM_SYNC = 0 then
    ([(PX4IO_PAGE_STATUS, PX4IO_P_STATUS_FLAGS, 0, PX4IO_P_STATUS_FLAGS_ARM_SYNC)],
     polled)
  else
    ([], polled)

/-- Initial value of the analog RSSI filter state, as in the source
member initializer. -/
def analog_rc_rssi_volt_init : ℚ := -1

/-- Fueled floor base-2 logarithm on naturals (structural recursion, so
concrete instances reduce inside proofs). -/
def log2fuel : Nat → Nat → Nat
  | 0, _ => 0
  | fuel + 1, n => if n < 2 then 0 else log2fuel fuel (n / 2) + 1

/-- Floor base-2 logarithm of a natural; 64 units of fuel cover every
magnitude this model meets. -/
def natLog2 (n : Nat) : Nat := log2fuel 64 n

/-- Floor of the base-2 logarithm of a positive rational, computed from the
bit lengths of numerator and denominator. -/
def floorLog2 (q : ℚ) : Int :=
  if (natLog2 q.num.toNat : Int) - (natLog2 q.den : Int) < 0 then
    if q.den ≤ q.num.toNat *
        2 ^ (-((natLog2 q.num.toNat : Int) - (natLog2 q.den : Int))).toNat then
      (natLog2 q.num.toNat : Int) - (natLog2 q.den : Int)
    else
      (natLog2 q.num.toNat : Int) - (natLog2 q.den : Int) - 1
  else
    if q.den * 2 ^ ((natLog2 q.num.toNat : Int) - (natLog2 q.den : Int)).toNat ≤
        q.num.toNat then
      (natLog2 q.num.toNat : Int) - (natLog2 q.den : Int)
    else
      (natLog2 q.num.toNat : Int) - (natLog2 q.den : Int) - 1

/-- Round a rational to the nearest integer, ties going to the even
integer, as IEEE-754 round-to-nearest-even demands. -/
def roundHalfEven (x : ℚ) : Int :=
  if x - (⌊x⌋ : ℚ) < 1 / 2 then ⌊x⌋
  else if 1 / 2 < x - (⌊x⌋ : ℚ) then ⌊x⌋ + 1
  else if ⌊x⌋ % 2 = 0 then ⌊x⌋ else ⌊x⌋ + 1

/-- The IEEE-754 binary32 value nearest to a positive rational (round to
nearest, ties to even), as an exact rational: the 24-bit significand is
obtained by scaling the value into the interval from 2^23 to 2^24 and
rounding. Magnitudes are assumed to stay inside the binary32 normal range,
as all voltages handled by the driver do. -/
def roundF32Pos (q : ℚ) : ℚ :=
  (roundHalfEven (q * (2 : ℚ) ^ (-(floorLog2 q - 23))) : ℚ) *
    (2 : ℚ) ^ (floorLog2 q - 23)

/-- IEEE-754 binary32 rounding of a rational, extended to zero and to
negative values by sign symmetry. -/
def roundF32 (q : ℚ) : ℚ :=
  if q = 0 then 0
  else if q < 0 then -roundF32Pos (-q)
  else roundF32Pos q

/-- One step of the analog RSSI voltage filter in io_get_status under the
source's float32 semantics: a negative filter state is first initialized to
the raw sample, then the exponential moving average is evaluated in
binary32 arithmetic - both multiplications and the addition each round
once, and the constants 0.99f and 0.01f are themselves the binary32
roundings of 99/100 and 1/100. -/
def rssiFilterStep (analog_rc_rssi_volt rssi_v : ℚ) : ℚ :=
  roundF32
    (roundF32 ((if analog_rc_rssi_volt < 0 then rssi_v else analog_rc_rssi_volt) *
        roundF32 (99 / 100)) +
     roundF32 (rssi_v * roundF32 (1 / 100)))

/-- Output cache of updateOutputs: last written value per channel and the
timestamp (ms) of the last full refresh. -/
structure OutState where
  prev_outputs : Nat → Nat
  last_full_output_update : Nat

/-- PX4IO updateOutputs: a channel is written through to the direct PWM page
when its value differs from the cache or when 500 ms have elapsed since the
last full refresh; in the latter case the full-refresh timestamp is reset.
Returns the write trace (page, channel, value) and the new cache. -/
def updateOutputs (now : Nat) (outputs : Nat → Nat) (num_outputs : Nat)
    (st : OutState) : List (Nat × Nat × Nat) × OutState :=
  ((List.range num_outputs).filterMap
     (fun i =>
       if st.prev_outputs i ≠ outputs i ∨ 500 ≤ now - st.last_full_output_update then
         some (PX4IO_PAGE_DIRECT_PWM, i, outputs i)
       else none),
   { prev_outputs := fun i =>
       if i < num_outputs ∧
          (st.prev_outputs i ≠ outputs i ∨ 500 ≤ now - st.last_full_output_update) then
         outputs i
       else st.prev_outputs i,
     last_full_output_update :=
       if 500 ≤ now - st.last_full_output_update then now
       else st.last_full_output_update })

/-- The externally supplied actuator_armed data consumed by
io_set_arming_state. -/
structure ArmedData where
  armed : Bool
  prearmed : Bool
  lockdown : Bool
  manual_lockdown : Bool
  force_failsafe : Bool
  ready_to_arm : Bool
  in_esc_calibration_mode : Bool
  deriving DecidableEq

/-- Local state of the arming synchronizer: the lockdown-override latch and
the last (set, clear) pair recorded as written. -/
structure ArmCache where
  lockdown_override : Bool
  last_written_arming_s : Nat
  last_written_arming_c : Nat
  deriving DecidableEq

/-- The (set, clear) arming bit pair composed by io_set_arming_state from the
armed inputs, together with the updated lockdown-override latch. A missing
armed sample (failed copy) leaves the pair at (0, 0). -/
def computeArming (armed : Option ArmedData) (lockdown_override : Bool) :
    (Nat × Nat) × Bool :=
  match armed with
  | none => ((0, 0), lockdown_override)
  | some a =>
    let sc1 : Nat × Nat :=
      if a.armed || a.in_esc_calibration_mode then
        (PX4IO_P_SETUP_ARMING_FMU_ARMED, 0)
      else
        (0, PX4IO_P_SETUP_ARMING_FMU_ARMED)
    let sc2 : Nat × Nat :=
      if a.prearmed then
        (sc1.1 ||| PX4IO_P_SETUP_ARMING_FMU_PREARMED, sc1.2)
      else
        (sc1.1, sc1.2 ||| PX4IO_P_SETUP_ARMING_FMU_PREARMED)
    let sc3 : (Nat × Nat) × Bool :=
      if (a.lockdown || a.manual_lockdown) && !lockdown_override then
        ((sc2.1 ||| PX4IO_P_SETUP_ARMING_LOCKDOWN, sc2.2), true)
      else if !(a.lockdown || a.manual_lockdown) && lockdown_override then
        ((sc2.1, sc2.2 ||| PX4IO_P_SETUP_ARMING_LOCKDOWN), false)
      else
        (sc2, lockdown_override)
    let sc4 : Nat × Nat :=
      if a.force_failsafe then
        (sc3.1.1 ||| PX4IO_P_SETUP_ARMING_FORCE_FAILSAFE, sc3.1.2)
      else
        (sc3.1.1, sc3.1.2 ||| PX4IO_P_SETUP_ARMING_FORCE_FAILSAFE)
    let sc5 : Nat × Nat :=
      if a.ready_to_arm then
        (sc4.1 ||| PX4IO_P_SETUP_ARMING_IO_ARM_OK, sc4.2)
      else
        (sc4.1, sc4.2 ||| PX4IO_P_SETUP_ARMING_IO_ARM_OK)
    (sc5, sc3.2)

/-- PX4IO io_set_arming_state: compose the (set, clear) pair, and only when
it differs from the last recorded pair, record it and attempt the arming
register-modify (whose link outcome is the modify_ret parameter and does not
influence the recorded state). Returns the result code, the transmitted
(clearbits, setbits) request if any, and the new cache. -/
def io_set_arming_state (armed : Option ArmedData) (st : ArmCache)
    (modify_ret : Int) : Int × Option (Nat × Nat) × ArmCache :=
  if (computeArming armed st.lockdown_override).1.1 ≠ st.last_written_arming_s ∨
     (computeArming armed st.lockdown_override).1.2 ≠ st.last_written_arming_c then
    (modify_ret,
     some ((computeArming armed st.lockdown_override).1.2,
           (computeArming armed st.lockdown_override).1.1),
     { lockdown_override := (computeArming armed st.lockdown_override).2,
       last_written_arming_s := (computeArming armed st.lockdown_override).1.1,
       last_written_arming_c := (computeArming armed st.lockdown_override).1.2 })
  else
    (0, none, { st with lockdown_override := (computeArming armed st.lockdown_override).2 })

/-- The unsigned 32-bit subtraction by 2 applied to the raw MAX_TRANSFER
configuration register in init. -/
def adjustedTransfer (raw : Nat) : Nat := (raw + 4294967294) % 4294967296

/-- Configuration sanity check of PX4IO init: when the actuator count, the
adjusted transfer limit or the RC input count read from the configuration
page is out of sane bounds, force safety on, request a reboot into the
bootloader and fail; otherwise proceed. Returns the result code and the
trace of setup-page writes (page, offset, value). -/
def initConfigCheck (max_actuators raw_max_transfer max_rc_input : Nat) :
    Int × List (Nat × Nat × Nat) :=
  let max_transfer := adjustedTransfer raw_max_transfer
  if max_actuators < 1 ∨ 16 < max_actuators ∨
     max_transfer < 16 ∨ 255 < max_transfer ∨
     max_rc_input < 1 ∨ 255 < max_rc_input then
    (-1, [(PX4IO_PAGE_SETUP, PX4IO_P_SETUP_FORCE_SAFETY_ON, PX4IO_FORCE_SAFETY_MAGIC),
          (PX4IO_PAGE_SETUP, PX4IO_P_SETUP_REBOOT_BL, PX4IO_REBOOT_BL_MAGIC)])
  else
    (0, [])

/-- The PX4IO_REBOOT_BOOTLOADER case of PX4IO ioctl: rejected with -EINVAL
while the cached status has the safety-off bit set, otherwise the argument
is written to the reboot-to-bootloader register and the call succeeds.
Returns the result code and the trace of writes (page, offset, value). -/
def ioctl_reboot_bootloader (status arg : Nat) : Int × List (Nat × Nat × Nat) :=
  if status &&& PX4IO_P_STATUS_FLAGS_SAFETY_OFF ≠ 0 then
    (-22, [])
  else
    (0, [(PX4IO_PAGE_SETUP, PX4IO_P_SETUP_REBOOT_BL, arg)])

/-- Result of one recovery wait loop: the absolute time (ms since the
recovery sequence entry) at which it timed out or succeeded. -/
inductive WaitRes where
  | timeout (t : Nat)
  | ok (t : Nat)
  deriving DecidableEq

/-- The three wait steps of the in-air-restart recovery sequence. -/
inductive RecStep where
  | one
  | two
  | three
  deriving DecidableEq

/-- The first recovery wait of init: poll the external arming feed every
10 ms until it reports an update; after each sleep, abort when more than
3000 ms have passed since the entry time (the single try-start time).
Fuel bounds the recursion; the deadline makes it sufficient. -/
def armWaitAux (upd : Nat → Bool) (entry : Nat) : Nat → Nat → Option WaitRes
  | 0, _ => none
  | fuel + 1, t =>
    if upd t then some (.ok t)
    else if 3000 < t + 10 - entry then some (.timeout (t + 10))
    else armWaitAux upd entry fuel (t + 10)

/-- The force-failsafe and arm-request waits of init: sample the external
arming feed, sleep 50 ms, abort when more than 2000 ms have passed since the
origin time (the source measures against the single try-start time taken
before the first wait, not against this loop entry), re-issue the command
and loop while the sampled value is false. -/
def pollWaitAux (feed : Nat → Bool) (origin : Nat) : Nat → Nat → Option WaitRes
  | 0, _ => none
  | fuel + 1, t =>
    if 2000 < t + 50 - origin then some (.timeout (t + 50))
    else if feed t then some (.ok (t + 50))
    else pollWaitAux feed origin fuel (t + 50)

/-- The in-air-restart recovery sequence of init, entered at time 0: the
arming-feed wait, then (only when the arming register showed force-failsafe)
the force-failsafe wait, then the arm-request wait, each wait reusing the
single try-start time 0 as its deadline origin. Returns the step and abort
time on a fatal timeout, the finish time on success, none on fuel
exhaustion. -/
def recoveryAux (fuel : Nat) (reg_force_failsafe : Bool)
    (upd ff armed : Nat → Bool) : Option (Except (RecStep × Nat) Nat) :=
  match armWaitAux upd 0 fuel 0 with
  | none => none
  | some (.timeout t) => some (.error (.one, t))
  | some (.ok t1) =>
    match (if reg_force_failsafe then pollWaitAux ff 0 fuel t1 else some (.ok t1)) with
    | none => none
    | some (.timeout t) => some (.error (.two, t))
    | some (.ok t2) =>
      match pollWaitAux armed 0 fuel t2 with
      | none => none
      | some (.timeout t) => some (.error (.three, t))
      | some (.ok t3) => some (.ok t3)

/-- Concrete arming feed for the recovery counterexample: the feed first
reports an update at 2500 ms. -/
def updFeedCex : Nat → Bool := fun t => decide (2500 ≤ t)

/-- Concrete force-failsafe feed for the recovery counterexample: the feed
reflects force_failsafe from 2600 ms on, 100 ms after the second step is
entered. -/
def ffFeedCex : Nat → Bool := fun t => decide (2600 ≤ t)

/-- Concrete armed inputs: armed and ready to arm, everything else clear. -/
def armedDataCex : ArmedData :=
  { armed := true, prearmed := false, lockdown := false, manual_lockdown := false,
    force_failsafe := false, ready_to_arm := true, in_esc_calibration_mode := false }

/-- Arming cache whose recorded pair already equals the pair computed from
armedDataCex. -/
def armCacheCex : ArmCache :=
  { lockdown_override := false, last_written_arming_s := 3, last_written_arming_c := 2304 }

/-- A link whose read primitive fails (returns 0 registers). -/
def ifcReadFailCex : Iface :=
  { readRet := fun _ _ => 0, readVal := fun _ => 5, writeRet := fun _ _ => 1 }

/-- A link whose primitives succeed and whose registers all hold 5. -/
def ifcOkCex : Iface :=
  { readRet := fun _ _ => 1, readVal := fun _ => 5, writeRet := fun _ _ => 1 }

/-- Helper: filterMap with an everywhere-some function is a map. -/
theorem filterMap_all_some {β : Type} (g : Nat → β) (l : List Nat) :
    l.filterMap (fun i => some (g i)) = l.map g := by
  induction l with
  | nil => rfl
  | cons a l ih => simp [List.filterMap_cons, ih]

/-- Claim C2: for every register count whose byte size exceeds the discovered
transfer limit, both io_reg_get and io_reg_set fail with the
too-many-registers error and leave the link read/write trace empty. -/
theorem io_reg_too_many_registers (max_transfer : Nat) (ifc : Iface)
    (page offset : Nat) (values : List Nat) (num_values : Nat)
    (hw : max_transfer < 2 * values.length) (hr : max_transfer < 2 * num_values) :
    io_reg_set max_transfer ifc page offset values = (-22, []) ∧
    io_reg_get max_transfer ifc page offset num_values = (-22, [], []) := by
  constructor
  · unfold io_reg_set
    rw [if_pos (by omega)]
  · unfold io_reg_get
    rw [if_pos (by omega)]

/-- Witness for C2: a 16-byte transfer limit rejects a 9-register (18-byte)
write and read without touching the link. -/
theorem io_reg_too_many_registers_witness :
    io_reg_set 16 ifcOkCex 54 0 (List.replicate 9 1500) = (-22, []) ∧
    io_reg_get 16 ifcOkCex 1 0 9 = (-22, [], []) :=
  io_reg_too_many_registers 16 ifcOkCex 54 0 (List.replicate 9 1500) 9
    (by simp) (by norm_num)

/-- Claim C10: io_reg_modify reads the target register first; when that read
fails it returns the read error and invokes no link write, and on a
successful read it writes back exactly the old value with the clearbits
cleared and the setbits set. -/
theorem io_reg_modify_read_first (max_transfer : Nat) (ifc : Iface)
    (page offset clearbits setbits : Nat) :
    ((io_reg_get max_transfer ifc page offset 1).1 ≠ 0 →
      io_reg_modify max_transfer ifc page offset clearbits setbits =
        ((io_reg_get max_transfer ifc page offset 1).1, [])) ∧
    (2 ≤ max_transfer → ifc.readRet (regAddr page offset) 1 = 1 →
      (io_reg_modify max_transfer ifc page offset clearbits setbits).2 =
        [(regAddr page offset,
          [(ifc.readVal (regAddr page offset) &&& (65535 ^^^ (clearbits &&& 65535)))
             ||| setbits])]) := by
  constructor
  · intro h
    unfold io_reg_modify
    rw [if_pos h]
  · intro hmt hread
    have hrange : ¬ (max_transfer / 2 < 1) := by omega
    have hget : io_reg_get max_transfer ifc page offset 1 =
        (0, [ifc.readVal (regAddr page offset)], [(regAddr page offset, 1)]) := by
      unfold io_reg_get
      rw [if_neg hrange, if_neg (by rw [hread]; norm_num)]
      simp [List.range_succ]
    have hv : io_reg_modify max_transfer ifc page offset clearbits setbits =
        io_reg_set max_transfer ifc page offset
          [(ifc.readVal (regAddr page offset) &&& (65535 ^^^ (clearbits &&& 65535)))
             ||| setbits] := by
      unfold io_reg_modify
      rw [hget]
      simp
    rw [hv]
    unfold io_reg_set
    rw [if_neg (by simpa using hrange)]
    split <;> rfl

/-- Witness for C10: a failing link read propagates its error with no write;
a successful read of value 5 writes back (5 with bits 7 cleared) or-ed
with 8. -/
theorem io_reg_modify_read_first_witness :
    io_reg_modify 32 ifcReadFailCex 1 0 7 8 =
      ((io_reg_get 32 ifcReadFailCex 1 0 1).1, []) ∧
    (io_reg_modify 32 ifcOkCex 1 0 7 8).2 =
      [(regAddr 1 0,
        [(ifcOkCex.readVal (regAddr 1 0) &&& (65535 ^^^ (7 &&& 65535))) ||| 8])] :=
  ⟨(io_reg_modify_read_first 32 ifcReadFailCex 1 0 7 8).1 (by decide),
   (io_reg_modify_read_first 32 ifcOkCex 1 0 7 8).2 (by norm_num) rfl⟩

/-- Helper: rounding a rational to the nearest integer with ties to even is
exact to one half. -/
theorem roundHalfEven_err (x : ℚ) : |(roundHalfEven x : ℚ) - x| ≤ 1 / 2 := by
  have h0 : (⌊x⌋ : ℚ) ≤ x := Int.floor_le x
  have h1 : x < ⌊x⌋ + 1 := Int.lt_floor_add_one x
  unfold roundHalfEven
  split
  · rename_i hr
    rw [abs_le]
    constructor <;> linarith
  · split
    · rename_i hr hr2
      rw [abs_le]
      push_cast
      constructor <;> linarith
    · rename_i hr hr2
      push_neg at hr hr2
      split
      · rw [abs_le]
        constructor <;> linarith
      · rw [abs_le]
        push_cast
        constructor <;> linarith

/-- Helper: rounding the scaled significand perturbs a value by at most half
a unit in the last place. -/
theorem roundScaled_err (s : ℚ) (e : Int) :
    |(roundHalfEven s : ℚ) * (2 : ℚ) ^ e - s * (2 : ℚ) ^ e| ≤ (2 : ℚ) ^ e / 2 := by
  have h2 : (0 : ℚ) < (2 : ℚ) ^ e := by positivity
  calc |(roundHalfEven s : ℚ) * (2 : ℚ) ^ e - s * (2 : ℚ) ^ e|
      = |((roundHalfEven s : ℚ) - s) * (2 : ℚ) ^ e| := by rw [sub_mul]
    _ = |(roundHalfEven s : ℚ) - s| * |(2 : ℚ) ^ e| := abs_mul _ _
    _ = |(roundHalfEven s : ℚ) - s| * (2 : ℚ) ^ e := by rw [abs_of_pos h2]
    _ ≤ (1 / 2) * (2 : ℚ) ^ e :=
        mul_le_mul_of_nonneg_right (roundHalfEven_err s) (le_of_lt h2)
    _ = (2 : ℚ) ^ e / 2 := by ring

/-- Helper: binary32 rounding of a positive rational is exact to half a unit
in the last place of its magnitude. -/
theorem roundF32Pos_err (q : ℚ) :
    |roundF32Pos q - q| ≤ (2 : ℚ) ^ (floorLog2 q - 23) / 2 := by
  have hid : q * (2 : ℚ) ^ (-(floorLog2 q - 23)) * (2 : ℚ) ^ (floorLog2 q - 23) = q := by
    rw [mul_assoc, ← zpow_add₀ (by norm_num : (2 : ℚ) ≠ 0)]
    simp
  have h := roundScaled_err (q * (2 : ℚ) ^ (-(floorLog2 q - 23))) (floorLog2 q - 23)
  rw [hid] at h
  unfold roundF32Pos
  exact h

/-- Counterexample for C6: for the raw sample produced by RSSI register
value 11 (rssi_v = 11 * 0.001f, computed in binary32 as the source does),
the first filter step does not set the filtered voltage exactly to the raw
value: the binary32 evaluation of raw*0.99f + raw*0.01f overshoots the raw
value by exactly one unit in the last place, 2 to the minus 30 - a one-ulp
first-sample transient, refuting the claimed exactness. -/
theorem rssi_filter_first_sample_cex :
    rssiFilterStep analog_rc_rssi_volt_init (roundF32 (11 * roundF32 (1 / 1000))) ≠
      roundF32 (11 * roundF32 (1 / 1000)) ∧
    rssiFilterStep analog_rc_rssi_volt_init (roundF32 (11 * roundF32 (1 / 1000))) -
      roundF32 (11 * roundF32 (1 / 1000)) = 1 / 2 ^ 30 := by
  constructor
  · with_unfolding_all decide
  · with_unfolding_all rfl

/-- Claim C6, amended: the first analog RSSI sample (filter state still at
its negative initial value) initializes the state to the raw value and then
applies the binary32 EMA step in the same cycle, so the first filtered
voltage is the binary32 evaluation of raw*0.99f + raw*0.01f, which can
differ from the raw value by a one-ulp rounding transient; every later step
with a nonnegative filter state is the binary32 EMA with the rounded
constants 0.99f and 0.01f; and each binary32 rounding of a positive value
is exact to half a unit in the last place of its magnitude. -/
theorem rssi_filter_spec :
    (∀ rssi_v : ℚ,
      rssiFilterStep analog_rc_rssi_volt_init rssi_v =
        roundF32 (roundF32 (rssi_v * roundF32 (99 / 100)) +
                  roundF32 (rssi_v * roundF32 (1 / 100)))) ∧
    (∀ volt rssi_v : ℚ, 0 ≤ volt →
      rssiFilterStep volt rssi_v =
        roundF32 (roundF32 (volt * roundF32 (99 / 100)) +
                  roundF32 (rssi_v * roundF32 (1 / 100)))) ∧
    (∀ x : ℚ, 0 < x → |roundF32 x - x| ≤ (2 : ℚ) ^ (floorLog2 x - 23) / 2) := by
  refine ⟨?_, ?_, ?_⟩
  · intro r
    unfold rssiFilterStep analog_rc_rssi_volt_init
    rw [if_pos (by norm_num)]
  · intro v r h
    unfold rssiFilterStep
    rw [if_neg (by linarith)]
  · intro x hx
    unfold roundF32
    rw [if_neg (ne_of_gt hx), if_neg (not_lt.mpr (le_of_lt hx))]
    exact roundF32Pos_err x

/-- Witness for C6: a filter state of 2 with sample 4 follows the binary32
EMA, and rounding the positive value 3 is exact to half an ulp. -/
theorem rssi_filter_spec_witness :
    rssiFilterStep 2 4 =
      roundF32 (roundF32 (2 * roundF32 (99 / 100)) +
                roundF32 (4 * roundF32 (1 / 100))) ∧
    |roundF32 3 - 3| ≤ (2 : ℚ) ^ (floorLog2 3 - 23) / 2 :=
  ⟨rssi_filter_spec.2.1 2 4 (by norm_num), rssi_filter_spec.2.2 3 (by norm_num)⟩

/-- Claim C7: whenever the configuration values read during init are out of
sane bounds, init writes the force-safety-on magic, then the
reboot-to-bootloader magic, and returns an error without proceeding. -/
theorem init_config_out_of_range (max_actuators raw_max_transfer max_rc_input : Nat)
    (h : max_actuators < 1 ∨ 16 < max_actuators ∨
         adjustedTransfer raw_max_transfer < 16 ∨
         255 < adjustedTransfer raw_max_transfer ∨
         max_rc_input < 1 ∨ 255 < max_rc_input) :
    initConfigCheck max_actuators raw_max_transfer max_rc_input =
      (-1, [(PX4IO_PAGE_SETUP, PX4IO_P_SETUP_FORCE_SAFETY_ON, PX4IO_FORCE_SAFETY_MAGIC),
            (PX4IO_PAGE_SETUP, PX4IO_P_SETUP_REBOOT_BL, PX4IO_REBOOT_BL_MAGIC)]) := by
  unfold initConfigCheck
  rw [if_pos h]

/-- Witness for C7: an actuator count of 0 is fatal and produces exactly the
safety-on-then-reboot write sequence. -/
theorem init_config_out_of_range_witness :
    initConfigCheck 0 100 8 =
      (-1, [(PX4IO_PAGE_SETUP, PX4IO_P_SETUP_FORCE_SAFETY_ON, PX4IO_FORCE_SAFETY_MAGIC),
            (PX4IO_PAGE_SETUP, PX4IO_P_SETUP_REBOOT_BL, PX4IO_REBOOT_BL_MAGIC)]) :=
  init_config_out_of_range 0 100 8 (by norm_num)

/-- Claim C8: a reboot-to-bootloader request is rejected with an error and no
register write while the cached status has the safety-off bit set; when
safety is not off, the reboot magic is written and the call succeeds. -/
theorem reboot_bootloader_safety_gate (status arg : Nat) :
    (status &&& PX4IO_P_STATUS_FLAGS_SAFETY_OFF ≠ 0 →
      ioctl_reboot_bootloader status arg = (-22, [])) ∧
    (status &&& PX4IO_P_STATUS_FLAGS_SAFETY_OFF = 0 →
      ioctl_reboot_bootloader status PX4IO_REBOOT_BL_MAGIC =
        (0, [(PX4IO_PAGE_SETUP, PX4IO_P_SETUP_REBOOT_BL, PX4IO_REBOOT_BL_MAGIC)])) := by
  constructor
  · intro h
    unfold ioctl_reboot_bootloader
    rw [if_pos h]
  · intro h
    unfold ioctl_reboot_bootloader
    rw [if_neg (by simp [h])]

/-- Witness for C8: with safety off (bit 4096 set) the request is rejected
with no write; with safety on the magic is written and the call succeeds. -/
theorem reboot_bootloader_safety_gate_witness :
    ioctl_reboot_bootloader 4096 14662 = (-22, []) ∧
    ioctl_reboot_bootloader 0 PX4IO_REBOOT_BL_MAGIC =
      (0, [(PX4IO_PAGE_SETUP, PX4IO_P_SETUP_REBOOT_BL, PX4IO_REBOOT_BL_MAGIC)]) :=
  ⟨(reboot_bootloader_safety_gate 4096 14662).1 (by decide),
   (reboot_bootloader_safety_gate 0 0).2 (by decide)⟩

/-- Counterexample for C1: with cached status 4096 (safety-off bit only) and
polled status 0, io_handle_status does issue the single register-modify
setting both the safety-off and arm-sync bits, but the cached status
afterwards is 0: its safety-off bit is clear, contradicting the claim that
the cache retains SAFETY_OFF equal to 1. -/
theorem io_handle_status_reset_cache_cex :
    io_handle_status 4096 0 =
      ([(PX4IO_PAGE_STATUS, PX4IO_P_STATUS_FLAGS, 0, 4608)], 0) ∧
    (io_handle_status 4096 0).2 &&& PX4IO_P_STATUS_FLAGS_SAFETY_OFF = 0 := by
  decide

/-- Claim C1, amended: for every cached status with SAFETY_OFF set and
ARM_SYNC clear, when a poll returns both bits clear, io_handle_status issues
exactly one register-modify setting both bits, and the cached status
afterwards is the polled status masked to its safety-off bit, which is zero
here, so the whole cache is cleared. -/
theorem io_handle_status_reset_spec (cached polled : Nat)
    (h1 : cached &&& PX4IO_P_STATUS_FLAGS_SAFETY_OFF ≠ 0)
    (h2 : polled &&& PX4IO_P_STATUS_FLAGS_SAFETY_OFF = 0)
    (h3 : polled &&& PX4IO_P_STATUS_FLAGS_ARM_SYNC = 0) :
    io_handle_status cached polled =
      ([(PX4IO_PAGE_STATUS, PX4IO_P_STATUS_FLAGS, 0,
         PX4IO_P_STATUS_FLAGS_SAFETY_OFF ||| PX4IO_P_STATUS_FLAGS_ARM_SYNC)], 0) := by
  unfold io_handle_status
  rw [if_pos ⟨h1, h2, h3⟩, h2]

/-- Witness for C1: the reset branch at cached status 4096 and polled
status 0. -/
theorem io_handle_status_reset_spec_witness :
    io_handle_status 4096 0 =
      ([(PX4IO_PAGE_STATUS, PX4IO_P_STATUS_FLAGS, 0,
         PX4IO_P_STATUS_FLAGS_SAFETY_OFF ||| PX4IO_P_STATUS_FLAGS_ARM_SYNC)], 0) :=
  io_handle_status_reset_spec 4096 0 (by decide) (by decide) (by decide)

/-- Claim C4: with channel values unchanged from the output cache, no
register write occurs while less than 500 ms has elapsed since the last full
refresh (and the cache is unchanged); at any call at or after 500 ms every
one of the num_outputs channels is rewritten in that same call and the
full-refresh timestamp is reset to the current time. -/
theorem updateOutputs_unchanged_refresh (now : Nat) (outputs : Nat → Nat)
    (num_outputs : Nat) (st : OutState)
    (hsame : ∀ i, i < num_outputs → outputs i = st.prev_outputs i) :
    (now - st.last_full_output_update < 500 →
      updateOutputs now outputs num_outputs st = ([], st)) ∧
    (500 ≤ now - st.last_full_output_update →
      (updateOutputs now outputs num_outputs st).1 =
        (List.range num_outputs).map (fun i => (PX4IO_PAGE_DIRECT_PWM, i, outputs i)) ∧
      (updateOutputs now outputs num_outputs st).2.last_full_output_update = now) := by
  constructor
  · intro hlt
    have hfull : ¬ (500 ≤ now - st.last_full_output_update) := by omega
    unfold updateOutputs
    have hwrites : (List.range num_outputs).filterMap
        (fun i =>
          if st.prev_outputs i ≠ outputs i ∨ 500 ≤ now - st.last_full_output_update then
            some (PX4IO_PAGE_DIRECT_PWM, i, outputs i)
          else none) = [] := by
      rw [List.filterMap_eq_nil_iff]
      intro i hi
      rw [List.mem_range] at hi
      rw [if_neg]
      push_neg
      exact ⟨(hsame i hi).symm, hlt⟩
    rw [hwrites]
    have hprev : (fun i =>
        if i < num_outputs ∧
           (st.prev_outputs i ≠ outputs i ∨ 500 ≤ now - st.last_full_output_update) then
          outputs i
        else st.prev_outputs i) = st.prev_outputs := by
      funext i
      by_cases hi : i < num_outputs
      · rw [if_neg]
        push_neg
        intro _
        exact ⟨(hsame i hi).symm, hlt⟩
      · rw [if_neg]
        intro hc
        exact hi hc.1
    rw [hprev, if_neg hfull]
  · intro hfull
    unfold updateOutputs
    refine ⟨?_, by simp [if_pos hfull]⟩
    have hf : (fun i =>
        if st.prev_outputs i ≠ outputs i ∨ 500 ≤ now - st.last_full_output_update then
          some (PX4IO_PAGE_DIRECT_PWM, i, outputs i)
        else none) =
        fun i => some ((fun j => (PX4IO_PAGE_DIRECT_PWM, j, outputs j)) i) := by
      funext i
      rw [if_pos (Or.inr hfull)]
    simp only [hf]
    exact filterMap_all_some _ _

/-- Witness for C4: an unchanged two-channel output at 100 ms causes no
write, while the same call at 600 ms rewrites both channels and resets the
full-refresh timestamp. -/
theorem updateOutputs_unchanged_refresh_witness :
    updateOutputs 100 (fun _ => 1000) 2 ⟨fun _ => 1000, 0⟩ =
      ([], ⟨fun _ => 1000, 0⟩) ∧
    (updateOutputs 600 (fun _ => 1000) 2 ⟨fun _ => 1000, 0⟩).1 =
      (List.range 2).map (fun i => (PX4IO_PAGE_DIRECT_PWM, i, 1000)) ∧
    (updateOutputs 600 (fun _ => 1000) 2 ⟨fun _ => 1000, 0⟩).2.last_full_output_update
      = 600 := by
  refine ⟨(updateOutputs_unchanged_refresh 100 (fun _ => 1000) 2
      ⟨fun _ => 1000, 0⟩ (fun _ _ => rfl)).1 (by norm_num), ?_, ?_⟩
  · exact ((updateOutputs_unchanged_refresh 600 (fun _ => 1000) 2
      ⟨fun _ => 1000, 0⟩ (fun _ _ => rfl)).2 (by norm_num)).1
  · exact ((updateOutputs_unchanged_refresh 600 (fun _ => 1000) 2
      ⟨fun _ => 1000, 0⟩ (fun _ _ => rfl)).2 (by norm_num)).2

/-- Helper: after any invocation of io_set_arming_state, the recorded
(set, clear) pair equals the pair computed in that invocation, whether or
not it was transmitted and whatever the link outcome was. -/
theorem io_set_arming_last_pair (armed : Option ArmedData) (st : ArmCache)
    (r : Int) :
    (io_set_arming_state armed st r).2.2.last_written_arming_s =
      (computeArming armed st.lockdown_override).1.1 ∧
    (io_set_arming_state armed st r).2.2.last_written_arming_c =
      (computeArming armed st.lockdown_override).1.2 := by
  unfold io_set_arming_state
  split
  · exact ⟨rfl, rfl⟩
  · rename_i h
    push_neg at h
    exact ⟨h.1.symm, h.2.symm⟩

/-- Helper: io_set_arming_state transmits nothing when the computed pair
already equals the recorded pair. -/
theorem io_set_arming_no_retx (armed : Option ArmedData) (st : ArmCache)
    (r : Int)
    (h : (computeArming armed st.lockdown_override).1 =
         (st.last_written_arming_s, st.last_written_arming_c)) :
    (io_set_arming_state armed st r).2.1 = none := by
  unfold io_set_arming_state
  rw [if_neg]
  push_neg
  exact ⟨congrArg Prod.fst h, congrArg Prod.snd h⟩

/-- Counterexample for C5: with armed inputs computing the pair (3, 2304)
and a cache whose recorded pair is already (3, 2304), two consecutive
invocations computing the same pair transmit zero register-modify calls,
not exactly one. -/
theorem io_set_arming_idempotence_cex :
    computeArming (some armedDataCex) armCacheCex.lockdown_override =
      ((3, 2304), false) ∧
    (io_set_arming_state (some armedDataCex) armCacheCex 0).2.1 = none ∧
    (io_set_arming_state (some armedDataCex) armCacheCex 0).2.2 = armCacheCex ∧
    (io_set_arming_state (some armedDataCex)
        (io_set_arming_state (some armedDataCex) armCacheCex 0).2.2 0).2.1 = none := by
  decide

/-- Claim C5, amended: the arming register-modify is transmitted only when
the computed pair differs from the last recorded pair, so two consecutive
invocations computing the same pair transmit at most one register-modify:
none in the second invocation, and one in the first exactly when its pair
differs from the pair recorded before it. -/
theorem io_set_arming_dedup (a1 a2 : Option ArmedData) (st : ArmCache)
    (r1 r2 : Int)
    (hpair : (computeArming a2
        (io_set_arming_state a1 st r1).2.2.lockdown_override).1 =
      (computeArming a1 st.lockdown_override).1) :
    (io_set_arming_state a2 (io_set_arming_state a1 st r1).2.2 r2).2.1 = none ∧
    ((io_set_arming_state a1 st r1).2.1 ≠ none ↔
      (computeArming a1 st.lockdown_override).1 ≠
        (st.last_written_arming_s, st.last_written_arming_c)) := by
  constructor
  · apply io_set_arming_no_retx
    rw [hpair]
    have hlast := io_set_arming_last_pair a1 st r1
    rw [hlast.1, hlast.2]
  · unfold io_set_arming_state
    split
    · rename_i h
      simp only [ne_eq]
      constructor
      · intro _ hc
        rcases h with h | h
        · exact h (congrArg Prod.fst hc)
        · exact h (congrArg Prod.snd hc)
      · intro _
        simp
    · rename_i h
      push_neg at h
      simp only [ne_eq, not_true_eq_false, false_iff, not_not]
      exact Prod.ext h.1 h.2

/-- Witness for C5: from a fresh cache the pair (3, 2304) is transmitted by
the first invocation and not by the second. -/
theorem io_set_arming_dedup_witness :
    (io_set_arming_state (some armedDataCex)
        (io_set_arming_state (some armedDataCex) ⟨false, 0, 0⟩ 0).2.2 0).2.1 = none ∧
    ((io_set_arming_state (some armedDataCex) ⟨false, 0, 0⟩ 0).2.1 ≠ none ↔
      (computeArming (some armedDataCex)
          (ArmCache.mk false 0 0).lockdown_override).1 ≠ (0, 0)) :=
  io_set_arming_dedup (some armedDataCex) (some armedDataCex) ⟨false, 0, 0⟩ 0 0
    (by decide)

/-- Claim C9: io_set_arming_state records the computed pair before the
register-modify is attempted, so when the modify fails with a link error the
call returns that error but the pair is still recorded, and a later
invocation computing the same pair transmits nothing: a failed arming write
is never retried for an unchanged pair. -/
theorem arming_failed_write_not_retried (a1 a2 : Option ArmedData)
    (st : ArmCache) (r2 : Int)
    (htrans : (io_set_arming_state a1 st (-1)).2.1 ≠ none)
    (hpair : (computeArming a2
        (io_set_arming_state a1 st (-1)).2.2.lockdown_override).1 =
      (computeArming a1 st.lockdown_override).1) :
    (io_set_arming_state a1 st (-1)).1 = -1 ∧
    (io_set_arming_state a1 st (-1)).2.2.last_written_arming_s =
      (computeArming a1 st.lockdown_override).1.1 ∧
    (io_set_arming_state a1 st (-1)).2.2.last_written_arming_c =
      (computeArming a1 st.lockdown_override).1.2 ∧
    (io_set_arming_state a2 (io_set_arming_state a1 st (-1)).2.2 r2).2.1 = none := by
  refine ⟨?_, (io_set_arming_last_pair a1 st (-1)).1,
    (io_set_arming_last_pair a1 st (-1)).2, ?_⟩
  · unfold io_set_arming_state at htrans ⊢
    split
    · rfl
    · rename_i h
      rw [if_neg h] at htrans
      exact absurd rfl htrans
  · apply io_set_arming_no_retx
    rw [hpair]
    have hlast := io_set_arming_last_pair a1 st (-1)
    rw [hlast.1, hlast.2]

/-- Witness for C9: from a fresh cache the pair (3, 2304) is transmitted and
the link fails with -1; the pair is recorded anyway and the second
invocation transmits nothing. -/
theorem arming_failed_write_not_retried_witness :
    (io_set_arming_state (some armedDataCex) ⟨false, 0, 0⟩ (-1)).1 = -1 ∧
    (io_set_arming_state (some armedDataCex) ⟨false, 0, 0⟩ (-1)).2.2.last_written_arming_s =
      (computeArming (some armedDataCex) (ArmCache.mk false 0 0).lockdown_override).1.1 ∧
    (io_set_arming_state (some armedDataCex) ⟨false, 0, 0⟩ (-1)).2.2.last_written_arming_c =
      (computeArming (some armedDataCex) (ArmCache.mk false 0 0).lockdown_override).1.2 ∧
    (io_set_arming_state (some armedDataCex)
        (io_set_arming_state (some armedDataCex) ⟨false, 0, 0⟩ (-1)).2.2 0).2.1 = none :=
  arming_failed_write_not_retried (some armedDataCex) (some armedDataCex)
    ⟨false, 0, 0⟩ 0 (by decide) (by decide)

/-- Helper: the arming-feed wait can only time out more than 3000 ms after
its own entry time. -/
theorem armWaitAux_timeout_entry (upd : Nat → Bool) (entry : Nat) :
    ∀ fuel t T, armWaitAux upd entry fuel t = some (WaitRes.timeout T) →
      3000 < T - entry := by
  intro fuel
  induction fuel with
  | zero =>
    intro t T h
    simp [armWaitAux] at h
  | succ n ih =>
    intro t T h
    rw [armWaitAux] at h
    split at h
    · simp at h
    · split at h
      · rename_i hc
        simp only [Option.some.injEq, WaitRes.timeout.injEq] at h
        omega
      · exact ih _ _ h

/-- Helper: the force-failsafe and arm-request waits can only time out more
than 2000 ms after their deadline origin (the shared try-start time), however
late the loop itself was entered. -/
theorem pollWaitAux_timeout_origin (feed : Nat → Bool) (origin : Nat) :
    ∀ fuel t T, pollWaitAux feed origin fuel t = some (WaitRes.timeout T) →
      2000 < T - origin := by
  intro fuel
  induction fuel with
  | zero =>
    intro t T h
    simp [pollWaitAux] at h
  | succ n ih =>
    intro t T h
    rw [pollWaitAux] at h
    split at h
    · rename_i hc
      simp only [Option.some.injEq, WaitRes.timeout.injEq] at h
      omega
    · split at h
      · simp at h
      · exact ih _ _ h

/-- Counterexample for C3: with the arming feed first updating at 2500 ms,
the force-failsafe step is entered at 2500 ms and the external feed reflects
force_failsafe at 2600 ms, only 100 ms (well within 2 s) after that step's
entry; yet init aborts that step with the fatal recovery error at 2550 ms,
because its 2 s deadline is measured from the try-start time taken before
the first wait, not from the step's own entry. -/
theorem init_recovery_deadline_cex :
    recoveryAux 400 true updFeedCex ffFeedCex (fun _ => true) =
      some (Except.error (RecStep.two, 2550)) ∧
    armWaitAux updFeedCex 0 400 0 = some (WaitRes.ok 2500) ∧
    ffFeedCex 2600 = true ∧
    2600 - 2500 ≤ 2000 := by
  refine ⟨rfl, rfl, rfl, by norm_num⟩

/-- Claim C3, amended: in the in-air restart recovery sequence, the
arming-feed wait is bounded by 3 s from the sequence entry (which is also
its own entry), while the force-failsafe wait and the 50 ms arm-request wait
are each bounded by 2 s measured from the single try-start time taken at the
sequence entry, not from each step's own entry; on any of these timeouts
init returns a fatal recovery-timeout error carrying the abort time. -/
theorem init_recovery_deadline_spec (fuel : Nat) (rff : Bool)
    (upd ff armed : Nat → Bool) (step : RecStep) (T : Nat)
    (h : recoveryAux fuel rff upd ff armed = some (Except.error (step, T))) :
    (step = RecStep.one → 3000 < T) ∧
    ((step = RecStep.two ∨ step = RecStep.three) → 2000 < T) := by
  unfold recoveryAux at h
  split at h
  · exact absurd h (by simp)
  · rename_i t h1
    simp only [Option.some.injEq, Except.error.injEq, Prod.mk.injEq] at h
    have ht := armWaitAux_timeout_entry upd 0 fuel 0 t h1
    constructor
    · intro _
      omega
    · intro hs
      rcases hs with hs | hs <;> rw [← h.1] at hs <;> exact absurd hs (by simp)
  · rename_i t1 h1
    split at h
    · exact absurd h (by simp)
    · rename_i t h2
      simp only [Option.some.injEq, Except.error.injEq, Prod.mk.injEq] at h
      have ht : 2000 < t := by
        cases rff with
        | false => simp at h2
        | true =>
          simp only [if_true] at h2
          have := pollWaitAux_timeout_origin ff 0 fuel t1 t h2
          omega
      constructor
      · intro hs
        rw [← h.1] at hs
        exact absurd hs (by simp)
      · intro _
        omega
    · rename_i t2 h2
      split at h
      · exact absurd h (by simp)
      · rename_i t h3
        simp only [Option.some.injEq, Except.error.injEq, Prod.mk.injEq] at h
        have ht := pollWaitAux_timeout_origin armed 0 fuel t2 t h3
        constructor
        · intro hs
          rw [← h.1] at hs
          exact absurd hs (by simp)
        · intro _
          omega
      · exact absurd h (by simp)

/-- Witness for C3: an arming feed that never updates makes the first wait
abort fatally at 3010 ms, beyond its 3 s bound. -/
theorem init_recovery_deadline_spec_witness :
    (RecStep.one = RecStep.one → 3000 < 3010) ∧
    ((RecStep.one = RecStep.two ∨ RecStep.one = RecStep.three) → 2000 < 3010) :=
  init_recovery_deadline_spec 400 false (fun _ => false) (fun _ => false)
    (fun _ => false) RecStep.one 3010 rfl

end Px4ioModel
